import Mathlib

/-!
OpenGLApp: window / rendering-context lifecycle, resize and projection

A shallow embedding of `src/OpenGLApp.cpp`.

* The process-wide globals (`g_isActive`, `g_isFullscreen`, `g_hInstance`, `g_hwnd`,
  `g_hdc`, `g_hrc`) are the fields of `State`, which is passed explicitly.
* Every call into the operating system is appended, with its arguments, to `State.calls`;
  what the operating system answers is an input of the embedded function (the `...Outcomes`
  records), so theorems quantify over every possible answer.
* The fixed-function graphics library is embedded as `GLState`: the viewport rectangle last
  handed to `glViewport`, the matrix mode, and the matrices as symbolic products of the
  operations applied since they were last reset.  The bounds handed to `glFrustum` and
  `glOrtho` in the source are whole numbers, so they are kept as integers.
* `WndProc` is embedded as a function of its own: messages that the operating system
  dispatches to it while another call is in progress are separate runs of `WndProc`.
* `OpenGLApp.h` is not part of the sources.  The two things the code takes from it, the
  window-class name and the default argument of `UpdateProjection`, are the fields of `Header`
  and every function that depends on them takes a `Header`.
-/

namespace OpenGLApp

/-! ## Platform constants (values of the Windows SDK and of `GL/gl.h`) -/

def WM_SIZE : Nat := 0x0005
def WM_ACTIVATE : Nat := 0x0006
def WM_CLOSE : Nat := 0x0010
def WM_CHAR : Nat := 0x0102
def WM_SYSCOMMAND : Nat := 0x0112
def SC_SCREENSAVE : Nat := 0xF140
def SC_MONITORPOWER : Nat := 0xF170
def VK_SPACE : Int := 0x20
def VK_ESCAPE : Int := 0x1B

def CS_VREDRAW : Nat := 0x0001
def CS_HREDRAW : Nat := 0x0002
def CS_OWNDC : Nat := 0x0020
def IDI_APPLICATION : Nat := 32512
def IDI_WINLOGO : Nat := 32517
def IDC_ARROW : Nat := 32512

def MB_OK : Nat := 0x00
def MB_YESNO : Nat := 0x04
def MB_ICONEXCLAMATION : Nat := 0x30
def MB_ICONINFORMATION : Nat := 0x40
def IDYES : Int := 6

def DM_BITSPERPEL : Nat := 0x00040000
def DM_PELSWIDTH : Nat := 0x00080000
def DM_PELSHEIGHT : Nat := 0x00100000
def CDS_FULLSCREEN : Nat := 0x04
def DISP_CHANGE_SUCCESSFUL : Int := 0

def WS_EX_APPWINDOW : Nat := 0x00040000
def WS_EX_WINDOWEDGE : Nat := 0x00000100
def WS_POPUP : Nat := 0x80000000
def WS_OVERLAPPEDWINDOW : Nat := 0x00CF0000
def WS_CLIPCHILDREN : Nat := 0x02000000
def WS_CLIPSIBLINGS : Nat := 0x04000000
def SW_SHOW : Nat := 5

def PFD_DOUBLEBUFFER : Nat := 0x01
def PFD_DRAW_TO_WINDOW : Nat := 0x04
def PFD_SUPPORT_OPENGL : Nat := 0x20
def PFD_TYPE_RGBA : Nat := 0
def PFD_MAIN_PLANE : Nat := 0

def GL_LIGHTING : Nat := 0x0B50
def GL_DEPTH_TEST : Nat := 0x0B71
def GL_LIGHT0 : Nat := 0x4000
def GL_SMOOTH : Nat := 0x1D01
def GL_MODELVIEW : Nat := 0x1700
def GL_PROJECTION : Nat := 0x1701
def GL_TEXTURE : Nat := 0x1702

/-! ## Data model -/

/-- An operating-system handle (`HINSTANCE`, `HWND`, `HDC`, `HGLRC`); `NULL` is `0`. -/
abbrev HANDLE := Nat

/-- What the code takes from `OpenGLApp.h`: the window-class name `WND_CLASS_NAME` and the
default value of the `toggle` parameter of `UpdateProjection`, which the call
`UpdateProjection()` in `ResizeScene` relies on. -/
structure Header where
  WND_CLASS_NAME : String
  UpdateProjection_default : Bool
  deriving DecidableEq, Repr

/-- The Win32 `RECT`. -/
structure RECT where
  left : Int
  top : Int
  right : Int
  bottom : Int
  deriving DecidableEq, Repr

/-- The fields of `DEVMODE` that `SetupWindow` fills in (all others are zeroed by `memset`). -/
structure DEVMODE where
  dmPelsWidth : Nat
  dmPelsHeight : Nat
  dmBitsPerPel : Nat
  dmFields : Nat
  deriving DecidableEq, Repr

/-- The fields of `PIXELFORMATDESCRIPTOR` that `SetupWindow` sets to a non-zero value or
takes from its arguments. -/
structure PIXELFORMATDESCRIPTOR where
  nVersion : Nat
  dwFlags : Nat
  iPixelType : Nat
  cColorBits : Nat
  cDepthBits : Nat
  cStencilBits : Nat
  iLayerType : Nat
  deriving DecidableEq, Repr

/-- A matrix of the graphics library, kept as the symbolic product of the operations applied
to it: `frustum m l r b t n f` is `m` multiplied by the perspective matrix that `glFrustum`
builds from the six bounds, `ortho m ...` is `m` multiplied by the orthographic matrix of
`glOrtho`, and `other k` stands for a matrix that was built in some other way. -/
inductive GLMatrix where
  | identity : GLMatrix
  | frustum (m : GLMatrix) (left right bottom top zNear zFar : Int) : GLMatrix
  | ortho (m : GLMatrix) (left right bottom top zNear zFar : Int) : GLMatrix
  | other (k : Nat) : GLMatrix
  deriving DecidableEq, Repr

/-- The part of the graphics-library state that the code reads or writes. -/
structure GLState where
  /-- The rectangle `(x, y, width, height)` last handed to `glViewport`. -/
  viewport : Int × Int × Int × Int
  /-- The matrix selected by `glMatrixMode`. -/
  matrixMode : Nat
  modelview : GLMatrix
  projection : GLMatrix
  texture : GLMatrix
  lighting : Bool
  light0 : Bool
  depthTest : Bool
  shadeModel : Nat
  deriving DecidableEq, Repr

/-- A call into the operating system, with the arguments the code passes. -/
inductive OSCall where
  | GetModuleHandle : OSCall
  | LoadIcon (name : Nat) : OSCall
  | LoadCursor (name : Nat) : OSCall
  | RegisterClassEx (style : Nat) (hInstance : HANDLE) (lpszClassName : String) : OSCall
  | MessageBox (text caption : String) (uType : Nat) : OSCall
  | ChangeDisplaySettings (mode : Option DEVMODE) (flags : Nat) : OSCall
  | ShowCursor (bShow : Bool) : OSCall
  | AdjustWindowRectEx (rect : RECT) (dwStyle : Nat) (bMenu : Bool) (dwExStyle : Nat) : OSCall
  | CreateWindowEx (dwExStyle : Nat) (className title : String) (dwStyle : Nat)
      (x y width height : Int) (hInstance : HANDLE) : OSCall
  | GetDC (hwnd : HANDLE) : OSCall
  | ChoosePixelFormat (hdc : HANDLE) (pfd : PIXELFORMATDESCRIPTOR) : OSCall
  | SetPixelFormat (hdc : HANDLE) (format : Nat) (pfd : PIXELFORMATDESCRIPTOR) : OSCall
  | wglCreateContext (hdc : HANDLE) : OSCall
  | wglMakeCurrent (hdc hrc : HANDLE) : OSCall
  | ShowWindow (hwnd : HANDLE) (nCmdShow : Nat) : OSCall
  | SetForegroundWindow (hwnd : HANDLE) : OSCall
  | SetFocus (hwnd : HANDLE) : OSCall
  | wglDeleteContext (hrc : HANDLE) : OSCall
  | ReleaseDC (hwnd hdc : HANDLE) : OSCall
  | DestroyWindow (hwnd : HANDLE) : OSCall
  | UnregisterClass (className : String) (hInstance : HANDLE) : OSCall
  | PostQuitMessage (nExitCode : Int) : OSCall
  | DefWindowProc (hwnd : HANDLE) (message wParam lParam : Nat) : OSCall
  deriving DecidableEq, Repr

/-- The globals of the program, the graphics state, and the operating-system calls issued so
far (oldest first). -/
structure State where
  g_isActive : Bool
  g_isFullscreen : Bool
  g_hInstance : HANDLE
  g_hwnd : HANDLE
  g_hdc : HANDLE
  g_hrc : HANDLE
  gl : GLState
  calls : List OSCall
  deriving DecidableEq, Repr

/-- Issue one operating-system call: it is appended to the log. -/
def State.call (s : State) (c : OSCall) : State :=
  { s with calls := s.calls ++ [c] }

/-! ## The graphics-library calls the code makes -/

/-- The call `glViewport(x, y, width, height)`: the rectangle becomes the viewport. -/
def glViewport (g : GLState) (x y width height : Int) : GLState :=
  { g with viewport := (x, y, width, height) }

/-- The call `glMatrixMode(mode)`. -/
def glMatrixMode (g : GLState) (mode : Nat) : GLState :=
  { g with matrixMode := mode }

/-- Replace the matrix selected by the matrix mode. -/
def GLState.setCurrentMatrix (g : GLState) (m : GLMatrix) : GLState :=
  if g.matrixMode = GL_PROJECTION then { g with projection := m }
  else if g.matrixMode = GL_TEXTURE then { g with texture := m }
  else { g with modelview := m }

/-- The matrix selected by the matrix mode. -/
def GLState.currentMatrix (g : GLState) : GLMatrix :=
  if g.matrixMode = GL_PROJECTION then g.projection
  else if g.matrixMode = GL_TEXTURE then g.texture
  else g.modelview

/-- The call `glLoadIdentity()`: the current matrix becomes the identity. -/
def glLoadIdentity (g : GLState) : GLState :=
  g.setCurrentMatrix .identity

/-- The call `glFrustum(l, r, b, t, n, f)`: the current matrix is multiplied by the
perspective matrix of the six bounds. -/
def glFrustum (g : GLState) (l r b t n f : Int) : GLState :=
  g.setCurrentMatrix (.frustum g.currentMatrix l r b t n f)

/-- The call `glOrtho(l, r, b, t, n, f)`: the current matrix is multiplied by the
orthographic matrix of the six bounds. -/
def glOrtho (g : GLState) (l r b t n f : Int) : GLState :=
  g.setCurrentMatrix (.ortho g.currentMatrix l r b t n f)

/-- The call `glEnable(cap)` for the capabilities the code uses. -/
def glEnable (g : GLState) (cap : Nat) : GLState :=
  if cap = GL_LIGHTING then { g with lighting := true }
  else if cap = GL_LIGHT0 then { g with light0 := true }
  else if cap = GL_DEPTH_TEST then { g with depthTest := true }
  else g

/-- The call `glShadeModel(mode)`. -/
def glShadeModel (g : GLState) (mode : Nat) : GLState :=
  { g with shadeModel := mode }

/-! ## `UpdateProjection`, `ResizeScene`, `InitializeScene` -/

/-- `void UpdateProjection(GLboolean toggle)`, source lines 448-471. -/
def UpdateProjection (s : State) (toggle : Bool) : State :=
  let s_usePerspective := toggle
  -- select the projection matrix and clear it out
  let g := glMatrixMode s.gl GL_PROJECTION
  let g := glLoadIdentity g
  -- choose the appropriate projection based on the currently toggled mode
  let g :=
    if s_usePerspective then glFrustum g (-1) 1 (-1) 1 5 100
    else glOrtho g (-1) 1 (-1) 1 5 100
  -- select modelview matrix
  let g := glMatrixMode g GL_MODELVIEW
  { s with gl := g }

/-- `GLvoid ResizeScene(GLsizei width, GLsizei height)`, source lines 361-374.  The call
`UpdateProjection()` passes the default argument declared in the header. -/
def ResizeScene (hdr : Header) (s : State) (width height : Int) : State :=
  -- avoid divide by zero
  let height := if height = 0 then 1 else height
  -- reset the viewport to the new dimensions
  let s := { s with gl := glViewport s.gl 0 0 width height }
  -- set up the projection, without toggling the projection mode
  UpdateProjection s hdr.UpdateProjection_default

/-- `BOOL InitializeScene()`, source lines 380-388. -/
def InitializeScene (s : State) : State × Bool :=
  let g := glEnable s.gl GL_LIGHTING
  let g := glEnable g GL_LIGHT0
  let g := glShadeModel g GL_SMOOTH
  let g := glEnable g GL_DEPTH_TEST
  ({ s with gl := g }, true)

/-- Which kind of projection is installed. -/
inductive ProjectionMode where
  | perspective : ProjectionMode
  | orthographic : ProjectionMode
  deriving DecidableEq, Repr

/-- The projection mode a projection matrix realises: perspective when it is the identity
multiplied by a frustum, orthographic when it is the identity multiplied by an orthographic
projection, and neither for any other matrix. -/
def GLMatrix.mode : GLMatrix → Option ProjectionMode
  | .frustum .identity _ _ _ _ _ _ => some .perspective
  | .ortho .identity _ _ _ _ _ _ => some .orthographic
  | _ => none

/-- The projection mode currently installed in a state. -/
def State.projectionMode (s : State) : Option ProjectionMode :=
  s.gl.projection.mode

/-! ## The message handler -/

/-- The macro `LOWORD`: the low 16 bits. -/
def LOWORD (x : Nat) : Nat := x % 65536

/-- The macro `HIWORD`: bits 16 to 31. -/
def HIWORD (x : Nat) : Nat := (x / 65536) % 65536

/-- Conversion of an unsigned `WPARAM` to the `int` parameter of `toupper`: the low 32 bits,
read as a two's-complement number. -/
def toInt32 (x : Nat) : Int :=
  if x % 2 ^ 32 < 2 ^ 31 then (x % 2 ^ 32 : Nat) else ((x % 2 ^ 32 : Nat) : Int) - 2 ^ 32

/-- The C library function `toupper` in the default "C" locale: the letters `a` to `z` are
mapped to `A` to `Z`, every other value is returned unchanged. -/
def toupper (c : Int) : Int :=
  if 97 ≤ c ∧ c ≤ 122 then c - 32 else c

/-- `LRESULT CALLBACK WndProc(HWND, UINT, WPARAM, LPARAM)`, source lines 20-92.
`defWindowProc` is what `DefWindowProc` returns when the handler reaches it. -/
def WndProc (hdr : Header) (defWindowProc : Int) (s : State) (hwnd : HANDLE)
    (message wParam lParam : Nat) : State × Int :=
  let dflt : State × Int := (s.call (.DefWindowProc hwnd message wParam lParam), defWindowProc)
  if message = WM_ACTIVATE then
    -- watch for the window being minimized and restored
    if HIWORD wParam = 0 then ({ s with g_isActive := true }, 0)
    else ({ s with g_isActive := false }, 0)
  else if message = WM_SYSCOMMAND then
    -- returning 0 prevents the screensaver and the powersave mode
    if wParam = SC_SCREENSAVE ∨ wParam = SC_MONITORPOWER then (s, 0)
    else dflt
  else if message = WM_CLOSE then
    -- send WM_QUIT to message queue
    (s.call (.PostQuitMessage 0), 0)
  else if message = WM_SIZE then
    -- update perspective with new width and height
    (ResizeScene hdr s (LOWORD lParam) (HIWORD lParam), 0)
  else if message = WM_CHAR then
    if toupper (toInt32 wParam) = VK_SPACE then (UpdateProjection s true, 0)
    else if toupper (toInt32 wParam) = VK_ESCAPE then (s.call (.PostQuitMessage 0), 0)
    else dflt
  else dflt

/-! ## `SetupWindow` -/

/-- Conversion of an `int` to a 32-bit unsigned field (`DWORD`). -/
def toDWORD (x : Int) : Nat := (x % 2 ^ 32).toNat

/-- The value of a 32-bit signed `LONG` computation: the result is reduced modulo `2 ^ 32`
and read as a two's-complement number. -/
def toLONG (x : Int) : Int :=
  if x % 2 ^ 32 < 2 ^ 31 then x % 2 ^ 32 else x % 2 ^ 32 - 2 ^ 32

/-- Conversion of an `int` to an 8-bit unsigned field (`BYTE`). -/
def toBYTE (x : Int) : Nat := (x % 2 ^ 8).toNat

/-- What the operating system and the user answer during one run of `SetupWindow`. -/
structure SetupOutcomes where
  /-- The instance handle returned by `GetModuleHandle(NULL)`. -/
  GetModuleHandle : HANDLE
  /-- The class atom returned by `RegisterClassEx`; `0` on failure. -/
  RegisterClassEx : Nat
  /-- The status returned by `ChangeDisplaySettings`. -/
  ChangeDisplaySettings : Int
  /-- The button the user presses in the fullscreen prompt. -/
  MessageBox : Int
  /-- The rectangle left in `windowRect` by `AdjustWindowRectEx`. -/
  AdjustWindowRectEx : RECT
  /-- The window handle returned by `CreateWindowEx`; `NULL` on failure. -/
  CreateWindowEx : HANDLE
  /-- The device context returned by `GetDC`; `NULL` on failure. -/
  GetDC : HANDLE
  /-- The pixel-format index returned by `ChoosePixelFormat`; `0` on failure. -/
  ChoosePixelFormat : Nat
  /-- Whether `SetPixelFormat` succeeds. -/
  SetPixelFormat : Bool
  /-- The rendering context returned by `wglCreateContext`; `NULL` on failure. -/
  wglCreateContext : HANDLE
  /-- Whether `wglMakeCurrent` succeeds. -/
  wglMakeCurrent : Bool
  deriving DecidableEq, Repr

/-- Sequencing with early exit: `second` runs on the state left by the first part unless the
first part has already executed `return FALSE`. -/
def andThen (first : State × Bool) (second : State → State × Bool) : State × Bool :=
  if first.2 = true then second first.1 else first

/-- Source lines 112-141 of `SetupWindow`: store the fullscreen flag, fetch the instance
handle, fill in the window class and register it. -/
def SetupWindow.registerClass (hdr : Header) (os : SetupOutcomes) (s : State)
    (isFullscreen : Bool) : State × Bool :=
  -- set the global flag
  let s := { s with g_isFullscreen := isFullscreen }
  -- get our instance handle
  let s := { s.call .GetModuleHandle with g_hInstance := os.GetModuleHandle }
  -- fill out the window class structure
  let s := s.call (.LoadIcon IDI_APPLICATION)
  let s := s.call (.LoadIcon IDI_WINLOGO)
  let s := s.call (.LoadCursor IDC_ARROW)
  -- register the windows class
  let s := s.call (.RegisterClassEx (CS_HREDRAW ||| CS_VREDRAW ||| CS_OWNDC) s.g_hInstance
    hdr.WND_CLASS_NAME)
  if os.RegisterClassEx = 0 then
    (s.call (.MessageBox "Unable to register the window class" "Error"
      (MB_OK ||| MB_ICONEXCLAMATION)), false)
  else (s, true)

/-- Source lines 143-171 of `SetupWindow`: if we're in fullscreen mode, set the display up for
it; when that fails the user chooses between windowed mode and `return FALSE`. -/
def SetupWindow.displayMode (os : SetupOutcomes) (width height bits : Int) (s : State) :
    State × Bool :=
  if s.g_isFullscreen then
    let screenSettings : DEVMODE :=
      { dmPelsWidth := toDWORD width
        dmPelsHeight := toDWORD height
        dmBitsPerPel := toDWORD bits
        dmFields := DM_BITSPERPEL ||| DM_PELSWIDTH ||| DM_PELSHEIGHT }
    -- attempt to switch to the resolution and bit depth we've selected
    let s := s.call (.ChangeDisplaySettings (some screenSettings) CDS_FULLSCREEN)
    if os.ChangeDisplaySettings ≠ DISP_CHANGE_SUCCESSFUL then
      -- if we can't get fullscreen, let them choose to quit or try windowed mode
      let s := s.call (.MessageBox
        "Cannot run in the fullscreen mode at the selected resolution\n on your video card. Try windowed mode instead?"
        "OpenGL Game Programming" (MB_YESNO ||| MB_ICONEXCLAMATION))
      if os.MessageBox = IDYES then ({ s with g_isFullscreen := false }, true)
      else (s, false)
    else (s, true)
  else (s, true)

/-- Source lines 173-220 of `SetupWindow`: choose the window style from the fullscreen flag,
adjust the window rectangle and create the window. -/
def SetupWindow.createWindow (hdr : Header) (os : SetupOutcomes) (title : String)
    (width height : Int) (s : State) : State × Bool :=
  -- set the window style appropriately, depending on whether we're in fullscreen mode
  -- (the components are the state, `dwExStyle` and `dwStyle`)
  let styled : State × Nat × Nat :=
    if s.g_isFullscreen then
      -- simple window with no borders or title bar; hide the cursor for now
      (s.call (.ShowCursor false), WS_EX_APPWINDOW, WS_POPUP)
    else
      (s, WS_EX_APPWINDOW ||| WS_EX_WINDOWEDGE, WS_OVERLAPPEDWINDOW)
  let s := styled.1
  let dwExStyle := styled.2.1
  let dwStyle := styled.2.2
  let windowRect : RECT := { left := 0, right := width, top := 0, bottom := height }
  -- change the size of the rect to account for borders, etc. set by the style
  let s := s.call (.AdjustWindowRectEx windowRect dwStyle false dwExStyle)
  let windowRect := os.AdjustWindowRectEx
  -- class registered, so now create our window (width and height are `LONG` differences)
  let s := s.call (.CreateWindowEx dwExStyle hdr.WND_CLASS_NAME title
    (dwStyle ||| WS_CLIPCHILDREN ||| WS_CLIPSIBLINGS) 0 0
    (toLONG (windowRect.right - windowRect.left)) (toLONG (windowRect.bottom - windowRect.top))
    s.g_hInstance)
  let s := { s with g_hwnd := os.CreateWindowEx }
  -- see if our window handle is valid
  if s.g_hwnd = 0 then
    (s.call (.MessageBox "Unable to create window" "Error" (MB_OK ||| MB_ICONEXCLAMATION)),
      false)
  else (s, true)

/-- Source lines 222-227 of `SetupWindow`: get a device context. -/
def SetupWindow.deviceContext (os : SetupOutcomes) (s : State) : State × Bool :=
  let s := { s.call (.GetDC s.g_hwnd) with g_hdc := os.GetDC }
  if s.g_hdc = 0 then
    (s.call (.MessageBox "Unable to create device context" "Error"
      (MB_OK ||| MB_ICONEXCLAMATION)), false)
  else (s, true)

/-- Source lines 229-264 of `SetupWindow`: choose the pixel format and set it. -/
def SetupWindow.pixelFormat (os : SetupOutcomes) (bits : Int) (s : State) : State × Bool :=
  -- set the pixel format we want
  let pfd : PIXELFORMATDESCRIPTOR :=
    { nVersion := 1
      dwFlags := PFD_DRAW_TO_WINDOW ||| PFD_SUPPORT_OPENGL ||| PFD_DOUBLEBUFFER
      iPixelType := PFD_TYPE_RGBA
      cColorBits := toBYTE bits
      cDepthBits := 16
      cStencilBits := 8
      iLayerType := PFD_MAIN_PLANE }
  -- choose best matching pixel format
  let s := s.call (.ChoosePixelFormat s.g_hdc pfd)
  let pixelFormat := os.ChoosePixelFormat
  if pixelFormat = 0 then
    (s.call (.MessageBox "Can't find an appropriate pixel format" "Error"
      (MB_OK ||| MB_ICONEXCLAMATION)), false)
  else
    -- set pixel format to device context
    let s := s.call (.SetPixelFormat s.g_hdc pixelFormat pfd)
    if os.SetPixelFormat = false then
      (s.call (.MessageBox "Unable to set pixel format" "Error"
        (MB_OK ||| MB_ICONEXCLAMATION)), false)
    else (s, true)

/-- Source lines 266-278 of `SetupWindow`: create the rendering context and make it the
active one. -/
def SetupWindow.renderingContext (os : SetupOutcomes) (s : State) : State × Bool :=
  -- create the OpenGL rendering context
  let s := { s.call (.wglCreateContext s.g_hdc) with g_hrc := os.wglCreateContext }
  if s.g_hrc = 0 then
    (s.call (.MessageBox "Unable to create OpenGL rendering context" "Error"
      (MB_OK ||| MB_ICONEXCLAMATION)), false)
  else
    -- now make the rendering context the active one
    let s := s.call (.wglMakeCurrent s.g_hdc s.g_hrc)
    if os.wglMakeCurrent = false then
      (s.call (.MessageBox "Unable to activate OpenGL rendering context" "ERROR"
        (MB_OK ||| MB_ICONEXCLAMATION)), false)
    else (s, true)

/-- Source lines 280-295 of `SetupWindow`: show and focus the window, set up the projection
through `ResizeScene`, and run `InitializeScene`. -/
def SetupWindow.showAndInitialize (hdr : Header) (width height : Int) (s : State) :
    State × Bool :=
  -- show the window in the forground, and set the keyboard focus to it
  let s := s.call (.ShowWindow s.g_hwnd SW_SHOW)
  let s := s.call (.SetForegroundWindow s.g_hwnd)
  let s := s.call (.SetFocus s.g_hwnd)
  -- set up the perspective for the current screen size
  let s := ResizeScene hdr s width height
  -- do one-time initialization
  let r := InitializeScene s
  if r.2 = false then
    (r.1.call (.MessageBox "Initialization failed" "Error" (MB_OK ||| MB_ICONEXCLAMATION)),
      false)
  else (r.1, true)

/-- `BOOL SetupWindow(LPCWSTR title, int width, int height, int bits, bool isFullscreen)`,
source lines 110-296: the blocks of the function in source order, each one skipped once an
earlier one has returned `FALSE`. -/
def SetupWindow (hdr : Header) (os : SetupOutcomes) (s : State) (title : String)
    (width height bits : Int) (isFullscreen : Bool) : State × Bool :=
  andThen (andThen (andThen (andThen (andThen (andThen
    (SetupWindow.registerClass hdr os s isFullscreen)
    (SetupWindow.displayMode os width height bits))
    (SetupWindow.createWindow hdr os title width height))
    (SetupWindow.deviceContext os))
    (SetupWindow.pixelFormat os bits))
    (SetupWindow.renderingContext os))
    (SetupWindow.showAndInitialize hdr width height)

/-! ## `KillWindow` -/

/-- What the operating system answers during one run of `KillWindow`. -/
structure KillOutcomes where
  /-- Whether `wglMakeCurrent(NULL, NULL)` succeeds. -/
  wglMakeCurrent : Bool
  /-- Whether `wglDeleteContext` succeeds. -/
  wglDeleteContext : Bool
  /-- Whether `ReleaseDC` succeeds. -/
  ReleaseDC : Bool
  /-- Whether `DestroyWindow` succeeds. -/
  DestroyWindow : Bool
  /-- Whether `UnregisterClass` succeeds. -/
  UnregisterClass : Bool
  deriving DecidableEq, Repr

/-- Source lines 304-309 of `KillWindow`: restore the original display if we're in
fullscreen mode. -/
def KillWindow.restoreDisplay (s : State) : State :=
  if s.g_isFullscreen then
    (s.call (.ChangeDisplaySettings none 0)).call (.ShowCursor true)
  else s

/-- Source lines 311-327 of `KillWindow`: if we have an RC, release it and delete it. -/
def KillWindow.releaseRC (os : KillOutcomes) (s : State) : State :=
  if s.g_hrc ≠ 0 then
    -- release the RC
    let s := s.call (.wglMakeCurrent 0 0)
    let s :=
      if os.wglMakeCurrent = false then
        s.call (.MessageBox "Unable to release rendering context" "Error"
          (MB_OK ||| MB_ICONINFORMATION))
      else s
    -- delete the RC
    let s := s.call (.wglDeleteContext s.g_hrc)
    let s :=
      if os.wglDeleteContext = false then
        s.call (.MessageBox "Unable to delete rendering context" "Error"
          (MB_OK ||| MB_ICONINFORMATION))
      else s
    { s with g_hrc := 0 }
  else s

/-- Source lines 329-334 of `KillWindow`: release the DC if we have one. -/
def KillWindow.releaseDC (os : KillOutcomes) (s : State) : State :=
  if s.g_hdc ≠ 0 then
    let s := s.call (.ReleaseDC s.g_hwnd s.g_hdc)
    if os.ReleaseDC = false then
      { s.call (.MessageBox "Unable to release device context" "Error"
          (MB_OK ||| MB_ICONINFORMATION)) with g_hdc := 0 }
    else s
  else s

/-- Source lines 336-341 of `KillWindow`: destroy the window if we have a valid handle. -/
def KillWindow.destroyWindow (os : KillOutcomes) (s : State) : State :=
  if s.g_hwnd ≠ 0 then
    let s := s.call (.DestroyWindow s.g_hwnd)
    if os.DestroyWindow = false then
      { s.call (.MessageBox "Unable to destroy window" "Error"
          (MB_OK ||| MB_ICONINFORMATION)) with g_hwnd := 0 }
    else s
  else s

/-- Source lines 343-348 of `KillWindow`: unregister our class. -/
def KillWindow.unregisterClass (hdr : Header) (os : KillOutcomes) (s : State) : State :=
  let s := s.call (.UnregisterClass hdr.WND_CLASS_NAME s.g_hInstance)
  if os.UnregisterClass = false then
    { s.call (.MessageBox "Unable to unregister window class" "Error"
        (MB_OK ||| MB_ICONINFORMATION)) with g_hInstance := 0 }
  else s

/-- `BOOL KillWindow()`, source lines 302-351: the five blocks in source order, then
`return TRUE`. -/
def KillWindow (hdr : Header) (os : KillOutcomes) (s : State) : State × Bool :=
  let s := KillWindow.restoreDisplay s
  let s := KillWindow.releaseRC os s
  let s := KillWindow.releaseDC os s
  let s := KillWindow.destroyWindow os s
  let s := KillWindow.unregisterClass hdr os s
  (s, true)

/-- Whether a logged call is a diagnostic message box. -/
def OSCall.isMessageBox : OSCall → Bool
  | .MessageBox _ _ _ => true
  | _ => false

/-- The calls of a log that are not diagnostic message boxes, in the order issued. -/
def withoutDiagnostics (calls : List OSCall) : List OSCall :=
  calls.filter (fun c => !c.isMessageBox)

/-- How often a quit signal has been enqueued. -/
def quitSignals (calls : List OSCall) : Nat :=
  calls.count (.PostQuitMessage 0)

/-- Whether a logged call creates a window. -/
def OSCall.isCreateWindowEx : OSCall → Bool
  | .CreateWindowEx _ _ _ _ _ _ _ _ _ => true
  | _ => false

/-- Whether a logged call changes the visibility of the cursor. -/
def OSCall.isShowCursor : OSCall → Bool
  | .ShowCursor _ => true
  | _ => false

/-! ## Concrete inputs used to evaluate the definitions -/

/-- A graphics state with identity matrices and everything disabled. -/
def exampleGL : GLState :=
  { viewport := (0, 0, 0, 0)
    matrixMode := GL_MODELVIEW
    modelview := .identity
    projection := .identity
    texture := .identity
    lighting := false
    light0 := false
    depthTest := false
    shadeModel := GL_SMOOTH }

/-- A state without any handle and with an empty call log. -/
def exampleState : State :=
  { g_isActive := true
    g_isFullscreen := false
    g_hInstance := 0
    g_hwnd := 0
    g_hdc := 0
    g_hrc := 0
    gl := exampleGL
    calls := [] }

/-- A header whose default for `toggle` is `GL_FALSE`. -/
def exampleHeader : Header :=
  { WND_CLASS_NAME := "OpenGL Window Class", UpdateProjection_default := false }

/-- Answers of the operating system with which every step of `SetupWindow` succeeds. -/
def exampleSetupOutcomes : SetupOutcomes :=
  { GetModuleHandle := 1
    RegisterClassEx := 49152
    ChangeDisplaySettings := 0
    MessageBox := 6
    AdjustWindowRectEx := { left := -8, top := -31, right := 808, bottom := 608 }
    CreateWindowEx := 2
    GetDC := 3
    ChoosePixelFormat := 7
    SetPixelFormat := true
    wglCreateContext := 4
    wglMakeCurrent := true }

/-- Answers with which the display-mode change fails (`DISP_CHANGE_BADMODE`) and the user
presses "No" (`IDNO`) in the fullscreen prompt. -/
def declinedOutcomes : SetupOutcomes :=
  { exampleSetupOutcomes with ChangeDisplaySettings := -2, MessageBox := 7 }

/-- Answers with which the display-mode change fails (`DISP_CHANGE_BADMODE`), the user presses
"Yes" in the fullscreen prompt, and every other step succeeds. -/
def acceptedOutcomes : SetupOutcomes :=
  { exampleSetupOutcomes with ChangeDisplaySettings := -2, MessageBox := 6 }

/-- Answers of the operating system with which every step of `KillWindow` succeeds. -/
def exampleKillOutcomes : KillOutcomes :=
  { wglMakeCurrent := true
    wglDeleteContext := true
    ReleaseDC := true
    DestroyWindow := true
    UnregisterClass := true }

/-! ## Resize and projection -/

/-- The projection matrix after `UpdateProjection`, for every prior state. -/
theorem UpdateProjection_projection_eq (s : State) (toggle : Bool) :
    (UpdateProjection s toggle).gl.projection =
      if toggle then .frustum .identity (-1) 1 (-1) 1 5 100
      else .ortho .identity (-1) 1 (-1) 1 5 100 := by
  cases toggle <;>
    simp [UpdateProjection, glMatrixMode, glLoadIdentity, glFrustum, glOrtho,
      GLState.setCurrentMatrix, GLState.currentMatrix]

/-- `UpdateProjection` touches nothing but the graphics state. -/
theorem UpdateProjection_globals (s : State) (toggle : Bool) :
    UpdateProjection s toggle = { s with gl := (UpdateProjection s toggle).gl } := by
  simp [UpdateProjection]

/-- The viewport after `UpdateProjection` is the viewport before. -/
theorem UpdateProjection_viewport (s : State) (toggle : Bool) :
    (UpdateProjection s toggle).gl.viewport = s.gl.viewport := by
  cases toggle <;>
    simp [UpdateProjection, glMatrixMode, glLoadIdentity, glFrustum, glOrtho,
      GLState.setCurrentMatrix, GLState.currentMatrix]

/-- C4: for every width and every height > 0, `ResizeScene(width, height)` sets the viewport to
exactly `(0, 0, width, height)`; and `ResizeScene(width, 0)` produces exactly the same state
(viewport, projection and everything else) as `ResizeScene(width, 1)`. -/
theorem ResizeScene_viewport (hdr : Header) (s : State) (width height : Int)
    (hpos : 0 < height) :
    (ResizeScene hdr s width height).gl.viewport = (0, 0, width, height) ∧
      ResizeScene hdr s width 0 = ResizeScene hdr s width 1 := by
  have hne : height ≠ 0 := by omega
  constructor
  · simp [ResizeScene, UpdateProjection_viewport, glViewport, hne]
  · simp [ResizeScene]

/-- Instance of C4 at an 800 x 600 resize of the example state. -/
theorem ResizeScene_viewport_witness :
    (0 : Int) < 600 ∧
      ((ResizeScene exampleHeader exampleState 800 600).gl.viewport = (0, 0, 800, 600) ∧
        ResizeScene exampleHeader exampleState 800 0 =
          ResizeScene exampleHeader exampleState 800 1) :=
  ⟨by decide, ResizeScene_viewport exampleHeader exampleState 800 600 (by decide)⟩

/-- C5: for every prior state, `UpdateProjection(true)` leaves the projection matrix equal to
the identity multiplied by the perspective frustum with bounds (-1, 1, -1, 1, 5, 100), and
`UpdateProjection(false)` leaves it equal to the identity multiplied by the orthographic
projection with the same bounds; the result is the same from any two prior states. -/
theorem UpdateProjection_installs_bounds (s s' : State) (toggle : Bool) :
    (UpdateProjection s true).gl.projection = .frustum .identity (-1) 1 (-1) 1 5 100 ∧
      (UpdateProjection s false).gl.projection = .ortho .identity (-1) 1 (-1) 1 5 100 ∧
      (UpdateProjection s toggle).gl.projection = (UpdateProjection s' toggle).gl.projection := by
  refine ⟨?_, ?_, ?_⟩
  · simpa using UpdateProjection_projection_eq s true
  · simpa using UpdateProjection_projection_eq s false
  · rw [UpdateProjection_projection_eq, UpdateProjection_projection_eq]

/-- The projection mode after `ResizeScene` is the one selected by the default argument of the
header, whatever was installed before. -/
theorem ResizeScene_projectionMode (hdr : Header) (s : State) (width height : Int) :
    (ResizeScene hdr s width height).projectionMode =
      some (if hdr.UpdateProjection_default then .perspective else .orthographic) := by
  unfold ResizeScene State.projectionMode
  rw [UpdateProjection_projection_eq]
  cases hdr.UpdateProjection_default <;> simp [GLMatrix.mode]

/-- C6, evaluated on the code: `ResizeScene` does not keep the projection mode.  With the
default `GL_FALSE` a perspective projection (installed by `UpdateProjection(GL_TRUE)`) is
orthographic after `ResizeScene(800, 600)`; with the default `GL_TRUE` an orthographic
projection is perspective after it.  So for either default of the header some state has its
projection mode changed. -/
theorem ResizeScene_changes_projectionMode :
    (∀ name : String,
      (UpdateProjection exampleState true).projectionMode = some .perspective ∧
      (ResizeScene ⟨name, false⟩ (UpdateProjection exampleState true) 800 600).projectionMode
        = some .orthographic) ∧
    (∀ name : String,
      (UpdateProjection exampleState false).projectionMode = some .orthographic ∧
      (ResizeScene ⟨name, true⟩ (UpdateProjection exampleState false) 800 600).projectionMode
        = some .perspective) := by
  refine ⟨fun name => ⟨by decide, ?_⟩, fun name => ⟨by decide, ?_⟩⟩
  · simp [ResizeScene_projectionMode]
  · simp [ResizeScene_projectionMode]

/-- The projection mode after `UpdateProjection(GL_TRUE)` is perspective from every state. -/
theorem UpdateProjection_true_projectionMode (s : State) :
    (UpdateProjection s true).projectionMode = some .perspective := by
  unfold State.projectionMode
  rw [UpdateProjection_projection_eq]
  simp [GLMatrix.mode]

/-- C7, evaluated on the code: `UpdateProjection(GL_TRUE)` does not toggle.  Called while a
perspective projection is installed it leaves a perspective projection installed, also when it
is reached through the space key of the message handler; and two consecutive calls from an
orthographic projection end in a perspective one, not in the original mode. -/
theorem UpdateProjection_true_does_not_toggle :
    (UpdateProjection exampleState true).projectionMode = some .perspective ∧
    (UpdateProjection (UpdateProjection exampleState true) true).projectionMode
      = some .perspective ∧
    (WndProc exampleHeader 0 (UpdateProjection exampleState true) 2 WM_CHAR 0x20 0).1.projectionMode
      = some .perspective ∧
    (UpdateProjection exampleState false).projectionMode = some .orthographic ∧
    (UpdateProjection (UpdateProjection (UpdateProjection exampleState false) true)
      true).projectionMode = some .perspective := by
  refine ⟨by decide, by decide, by decide, by decide, by decide⟩

/-! ## The message handler -/

/-- Below `2 ^ 32` only the character code 27 reaches the escape case of the handler. -/
theorem toupper_toInt32_eq_escape (c : Nat) (hc : c < 2 ^ 32)
    (h : toupper (toInt32 c) = VK_ESCAPE) : c = 27 := by
  have hmod : c % 2 ^ 32 = c := Nat.mod_eq_of_lt hc
  unfold toupper toInt32 VK_ESCAPE at h
  rw [hmod] at h
  split_ifs at h <;> omega

/-- C8: for every state, the handler given a close event enqueues the quit signal exactly once
(the log grows by the single call `PostQuitMessage(0)`, so `DefWindowProc` is not called),
returns 0 and changes no flag or handle; a character event carrying the escape character (27)
has exactly the same effect and result; and a character event carrying any other character
code `c` enqueues no quit signal. -/
theorem WndProc_close_and_escape (hdr : Header) (defWindowProc : Int) (s : State)
    (hwnd : HANDLE) (wParam lParam lParam' c : Nat) (hc : c < 2 ^ 32) (hne : c ≠ 27) :
    WndProc hdr defWindowProc s hwnd WM_CLOSE wParam lParam
        = ({ s with calls := s.calls ++ [.PostQuitMessage 0] }, 0) ∧
      quitSignals (WndProc hdr defWindowProc s hwnd WM_CLOSE wParam lParam).1.calls
        = quitSignals s.calls + 1 ∧
      WndProc hdr defWindowProc s hwnd WM_CHAR 27 lParam'
        = WndProc hdr defWindowProc s hwnd WM_CLOSE wParam lParam ∧
      quitSignals (WndProc hdr defWindowProc s hwnd WM_CHAR c lParam').1.calls
        = quitSignals s.calls := by
  have hclose : WndProc hdr defWindowProc s hwnd WM_CLOSE wParam lParam
      = ({ s with calls := s.calls ++ [.PostQuitMessage 0] }, 0) := by
    simp [WndProc, WM_CLOSE, WM_ACTIVATE, WM_SYSCOMMAND, State.call]
  have hesc : WndProc hdr defWindowProc s hwnd WM_CHAR 27 lParam'
      = ({ s with calls := s.calls ++ [.PostQuitMessage 0] }, 0) := by
    simp [WndProc, WM_CLOSE, WM_ACTIVATE, WM_SYSCOMMAND, WM_SIZE, WM_CHAR, State.call,
      toupper, toInt32, VK_SPACE, VK_ESCAPE]
  refine ⟨hclose, ?_, ?_, ?_⟩
  · rw [hclose]
    simp [quitSignals]
  · rw [hclose, hesc]
  · have hnesc : ¬ toupper (toInt32 c) = VK_ESCAPE :=
      fun h => hne (toupper_toInt32_eq_escape c hc h)
    by_cases hsp : toupper (toInt32 c) = VK_SPACE
    · simp [WndProc, WM_CLOSE, WM_ACTIVATE, WM_SYSCOMMAND, WM_SIZE, WM_CHAR, hsp,
        UpdateProjection]
    · simp [WndProc, WM_CLOSE, WM_ACTIVATE, WM_SYSCOMMAND, WM_SIZE, WM_CHAR, hsp, hnesc,
        State.call, quitSignals]

/-- Instance of C8 at the example state, with the character `q` as the other character. -/
theorem WndProc_close_and_escape_witness :
    (113 < 2 ^ 32 ∧ 113 ≠ 27) ∧
      (WndProc exampleHeader 0 exampleState 2 WM_CLOSE 0 0
          = ({ exampleState with calls := exampleState.calls ++ [.PostQuitMessage 0] }, 0) ∧
        quitSignals (WndProc exampleHeader 0 exampleState 2 WM_CLOSE 0 0).1.calls
          = quitSignals exampleState.calls + 1 ∧
        WndProc exampleHeader 0 exampleState 2 WM_CHAR 27 0
          = WndProc exampleHeader 0 exampleState 2 WM_CLOSE 0 0 ∧
        quitSignals (WndProc exampleHeader 0 exampleState 2 WM_CHAR 113 0).1.calls
          = quitSignals exampleState.calls) :=
  ⟨by decide,
    WndProc_close_and_escape exampleHeader 0 exampleState 2 0 0 0 113 (by decide) (by decide)⟩

/-! ## `SetupWindow` -/

/-- A sequence succeeds exactly when both of its parts do. -/
theorem andThen_snd (first : State × Bool) (second : State → State × Bool) :
    (andThen first second).2 = true ↔ first.2 = true ∧ (second first.1).2 = true := by
  unfold andThen
  by_cases h : first.2 = true <;> simp [h]

theorem registerClass_snd (hdr : Header) (os : SetupOutcomes) (s : State) (fs : Bool) :
    (SetupWindow.registerClass hdr os s fs).2 = true ↔ os.RegisterClassEx ≠ 0 := by
  unfold SetupWindow.registerClass
  by_cases h : os.RegisterClassEx = 0 <;> simp [h]

/-- The fullscreen flag on which `SetupWindow` negotiates the display mode is its argument. -/
theorem registerClass_isFullscreen (hdr : Header) (os : SetupOutcomes) (s : State) (fs : Bool) :
    (SetupWindow.registerClass hdr os s fs).1.g_isFullscreen = fs := by
  unfold SetupWindow.registerClass
  by_cases h : os.RegisterClassEx = 0 <;> simp [h, State.call]

theorem displayMode_snd (os : SetupOutcomes) (width height bits : Int) (s : State) :
    (SetupWindow.displayMode os width height bits s).2 = true ↔
      (s.g_isFullscreen = false ∨ os.ChangeDisplaySettings = DISP_CHANGE_SUCCESSFUL ∨
        os.MessageBox = IDYES) := by
  unfold SetupWindow.displayMode
  cases hfs : s.g_isFullscreen <;>
    by_cases h2 : os.ChangeDisplaySettings = DISP_CHANGE_SUCCESSFUL <;>
    by_cases h3 : os.MessageBox = IDYES <;> simp [h2, h3]

theorem createWindow_snd (hdr : Header) (os : SetupOutcomes) (title : String)
    (width height : Int) (s : State) :
    (SetupWindow.createWindow hdr os title width height s).2 = true ↔ os.CreateWindowEx ≠ 0 := by
  unfold SetupWindow.createWindow
  by_cases h : os.CreateWindowEx = 0 <;> simp [h]

theorem deviceContext_snd (os : SetupOutcomes) (s : State) :
    (SetupWindow.deviceContext os s).2 = true ↔ os.GetDC ≠ 0 := by
  unfold SetupWindow.deviceContext
  by_cases h : os.GetDC = 0 <;> simp [h]

theorem pixelFormat_snd (os : SetupOutcomes) (bits : Int) (s : State) :
    (SetupWindow.pixelFormat os bits s).2 = true ↔
      os.ChoosePixelFormat ≠ 0 ∧ os.SetPixelFormat = true := by
  unfold SetupWindow.pixelFormat
  by_cases h : os.ChoosePixelFormat = 0 <;> cases h' : os.SetPixelFormat <;> simp [h]

theorem renderingContext_snd (os : SetupOutcomes) (s : State) :
    (SetupWindow.renderingContext os s).2 = true ↔
      os.wglCreateContext ≠ 0 ∧ os.wglMakeCurrent = true := by
  unfold SetupWindow.renderingContext
  by_cases h : os.wglCreateContext = 0 <;> cases h' : os.wglMakeCurrent <;> simp [h]

theorem showAndInitialize_snd (hdr : Header) (width height : Int) (s : State) :
    (SetupWindow.showAndInitialize hdr width height s).2 = true := by
  simp [SetupWindow.showAndInitialize, InitializeScene]

/-- The result of `SetupWindow` in terms of the outcomes of the OS calls. -/
theorem SetupWindow_snd (hdr : Header) (os : SetupOutcomes) (s : State)
    (title : String) (width height bits : Int) (isFullscreen : Bool) :
    (SetupWindow hdr os s title width height bits isFullscreen).2 = true ↔
      os.RegisterClassEx ≠ 0 ∧
      (isFullscreen = false ∨ os.ChangeDisplaySettings = DISP_CHANGE_SUCCESSFUL ∨
        os.MessageBox = IDYES) ∧
      os.CreateWindowEx ≠ 0 ∧ os.GetDC ≠ 0 ∧ os.ChoosePixelFormat ≠ 0 ∧
      os.SetPixelFormat = true ∧ os.wglCreateContext ≠ 0 ∧ os.wglMakeCurrent = true := by
  unfold SetupWindow
  rw [andThen_snd, andThen_snd, andThen_snd, andThen_snd, andThen_snd, andThen_snd,
    registerClass_snd, displayMode_snd, createWindow_snd, deviceContext_snd, pixelFormat_snd,
    renderingContext_snd, registerClass_isFullscreen]
  simp only [showAndInitialize_snd, and_true, and_assoc]

/-- C1: for every configuration, every combination of outcomes of the OS calls and every
answer to the fullscreen prompt, `SetupWindow` returns success if and only if every setup step
succeeded: class registration, the display-mode change when fullscreen is requested (or, when
it failed, the user accepting the windowed fallback), window creation, device-context
acquisition, pixel-format choice, pixel-format assignment, context creation, context
activation, and scene initialization (which succeeds from every state); in every other case it
returns failure. -/
theorem SetupWindow_success_iff (hdr : Header) (os : SetupOutcomes) (s : State)
    (title : String) (width height bits : Int) (isFullscreen : Bool) :
    (∀ g : State, (InitializeScene g).2 = true) ∧
      ((SetupWindow hdr os s title width height bits isFullscreen).2 = true ↔
        os.RegisterClassEx ≠ 0 ∧
        (isFullscreen = false ∨ os.ChangeDisplaySettings = DISP_CHANGE_SUCCESSFUL ∨
          os.MessageBox = IDYES) ∧
        os.CreateWindowEx ≠ 0 ∧ os.GetDC ≠ 0 ∧ os.ChoosePixelFormat ≠ 0 ∧
        os.SetPixelFormat = true ∧ os.wglCreateContext ≠ 0 ∧ os.wglMakeCurrent = true) ∧
      ((SetupWindow hdr os s title width height bits isFullscreen).2 = false ↔
        ¬ (os.RegisterClassEx ≠ 0 ∧
        (isFullscreen = false ∨ os.ChangeDisplaySettings = DISP_CHANGE_SUCCESSFUL ∨
          os.MessageBox = IDYES) ∧
        os.CreateWindowEx ≠ 0 ∧ os.GetDC ≠ 0 ∧ os.ChoosePixelFormat ≠ 0 ∧
        os.SetPixelFormat = true ∧ os.wglCreateContext ≠ 0 ∧ os.wglMakeCurrent = true)) := by
  refine ⟨fun g => rfl, SetupWindow_snd hdr os s title width height bits isFullscreen, ?_⟩
  rw [← SetupWindow_snd hdr os s title width height bits isFullscreen]
  simp

/-- The state in which `SetupWindow` returns when the display-mode change fails and the user
declines the windowed fallback. -/
theorem SetupWindow_declined_eq (hdr : Header) (os : SetupOutcomes) (s : State)
    (title : String) (width height bits : Int)
    (hreg : os.RegisterClassEx ≠ 0)
    (hcds : os.ChangeDisplaySettings ≠ DISP_CHANGE_SUCCESSFUL)
    (hno : os.MessageBox ≠ IDYES) :
    SetupWindow hdr os s title width height bits true =
      ({ s with
          g_isFullscreen := true
          g_hInstance := os.GetModuleHandle
          calls := s.calls ++
            [.GetModuleHandle, .LoadIcon IDI_APPLICATION, .LoadIcon IDI_WINLOGO,
              .LoadCursor IDC_ARROW,
              .RegisterClassEx (CS_HREDRAW ||| CS_VREDRAW ||| CS_OWNDC) os.GetModuleHandle
                hdr.WND_CLASS_NAME,
              .ChangeDisplaySettings
                (some { dmPelsWidth := toDWORD width, dmPelsHeight := toDWORD height,
                        dmBitsPerPel := toDWORD bits,
                        dmFields := DM_BITSPERPEL ||| DM_PELSWIDTH ||| DM_PELSHEIGHT })
                CDS_FULLSCREEN,
              .MessageBox
                "Cannot run in the fullscreen mode at the selected resolution\n on your video card. Try windowed mode instead?"
                "OpenGL Game Programming" (MB_YESNO ||| MB_ICONEXCLAMATION)] }, false) := by
  simp [SetupWindow, andThen, SetupWindow.registerClass, SetupWindow.displayMode, State.call,
    hreg, hcds, hno]

/-- C2: for every width, height and bit depth, when `SetupWindow` is called with fullscreen
requested, class registration succeeds, the display-mode change fails and the user declines
the windowed fallback, `SetupWindow` returns failure without creating a window: none of the
calls it issues is a window-creation call, and the window, device-context and
rendering-context handles are left unchanged. -/
theorem SetupWindow_declined_fallback (hdr : Header) (os : SetupOutcomes) (s : State)
    (title : String) (width height bits : Int)
    (hreg : os.RegisterClassEx ≠ 0)
    (hcds : os.ChangeDisplaySettings ≠ DISP_CHANGE_SUCCESSFUL)
    (hno : os.MessageBox ≠ IDYES) :
    (SetupWindow hdr os s title width height bits true).2 = false ∧
      (∃ issued : List OSCall,
        (SetupWindow hdr os s title width height bits true).1.calls = s.calls ++ issued ∧
        issued.any OSCall.isCreateWindowEx = false) ∧
      (SetupWindow hdr os s title width height bits true).1.g_hwnd = s.g_hwnd ∧
      (SetupWindow hdr os s title width height bits true).1.g_hdc = s.g_hdc ∧
      (SetupWindow hdr os s title width height bits true).1.g_hrc = s.g_hrc := by
  rw [SetupWindow_declined_eq hdr os s title width height bits hreg hcds hno]
  refine ⟨rfl, ⟨_, rfl, ?_⟩, rfl, rfl, rfl⟩
  simp [OSCall.isCreateWindowEx]

/-- Instance of C2: an 800 x 600 x 32 fullscreen request whose mode change is rejected and
whose fallback prompt is answered "No". -/
theorem SetupWindow_declined_fallback_witness :
    (declinedOutcomes.RegisterClassEx ≠ 0 ∧
      declinedOutcomes.ChangeDisplaySettings ≠ DISP_CHANGE_SUCCESSFUL ∧
      declinedOutcomes.MessageBox ≠ IDYES) ∧
    ((SetupWindow exampleHeader declinedOutcomes exampleState "Demo" 800 600 32 true).2 = false ∧
      (∃ issued : List OSCall,
        (SetupWindow exampleHeader declinedOutcomes exampleState "Demo" 800 600 32 true).1.calls
          = exampleState.calls ++ issued ∧
        issued.any OSCall.isCreateWindowEx = false) ∧
      (SetupWindow exampleHeader declinedOutcomes exampleState "Demo" 800 600 32 true).1.g_hwnd
        = exampleState.g_hwnd ∧
      (SetupWindow exampleHeader declinedOutcomes exampleState "Demo" 800 600 32 true).1.g_hdc
        = exampleState.g_hdc ∧
      (SetupWindow exampleHeader declinedOutcomes exampleState "Demo" 800 600 32 true).1.g_hrc
        = exampleState.g_hrc) :=
  ⟨by decide,
    SetupWindow_declined_fallback exampleHeader declinedOutcomes exampleState "Demo" 800 600 32
      (by decide) (by decide) (by decide)⟩

/-- The calls issued, and the flags and handles left, by a `SetupWindow` whose fullscreen
request is downgraded to windowed mode and whose other steps all succeed. -/
theorem SetupWindow_accepted_state (hdr : Header) (os : SetupOutcomes) (s : State)
    (title : String) (width height bits : Int)
    (hreg : os.RegisterClassEx ≠ 0)
    (hcds : os.ChangeDisplaySettings ≠ DISP_CHANGE_SUCCESSFUL)
    (hyes : os.MessageBox = IDYES)
    (hwnd : os.CreateWindowEx ≠ 0) (hdc : os.GetDC ≠ 0) (hfmt : os.ChoosePixelFormat ≠ 0)
    (hset : os.SetPixelFormat = true) (hrc : os.wglCreateContext ≠ 0)
    (hcur : os.wglMakeCurrent = true) :
    (SetupWindow hdr os s title width height bits true).1.g_isFullscreen = false ∧
    (SetupWindow hdr os s title width height bits true).1.calls = s.calls ++
      [.GetModuleHandle, .LoadIcon IDI_APPLICATION, .LoadIcon IDI_WINLOGO,
        .LoadCursor IDC_ARROW,
        .RegisterClassEx (CS_HREDRAW ||| CS_VREDRAW ||| CS_OWNDC) os.GetModuleHandle
          hdr.WND_CLASS_NAME,
        .ChangeDisplaySettings
          (some { dmPelsWidth := toDWORD width, dmPelsHeight := toDWORD height,
                  dmBitsPerPel := toDWORD bits,
                  dmFields := DM_BITSPERPEL ||| DM_PELSWIDTH ||| DM_PELSHEIGHT })
          CDS_FULLSCREEN,
        .MessageBox
          "Cannot run in the fullscreen mode at the selected resolution\n on your video card. Try windowed mode instead?"
          "OpenGL Game Programming" (MB_YESNO ||| MB_ICONEXCLAMATION),
        .AdjustWindowRectEx { left := 0, top := 0, right := width, bottom := height }
          WS_OVERLAPPEDWINDOW false (WS_EX_APPWINDOW ||| WS_EX_WINDOWEDGE),
        .CreateWindowEx (WS_EX_APPWINDOW ||| WS_EX_WINDOWEDGE) hdr.WND_CLASS_NAME title
          (WS_OVERLAPPEDWINDOW ||| WS_CLIPCHILDREN ||| WS_CLIPSIBLINGS) 0 0
          (toLONG (os.AdjustWindowRectEx.right - os.AdjustWindowRectEx.left))
          (toLONG (os.AdjustWindowRectEx.bottom - os.AdjustWindowRectEx.top))
          os.GetModuleHandle,
        .GetDC os.CreateWindowEx,
        .ChoosePixelFormat os.GetDC
          { nVersion := 1,
            dwFlags := PFD_DRAW_TO_WINDOW ||| PFD_SUPPORT_OPENGL ||| PFD_DOUBLEBUFFER,
            iPixelType := PFD_TYPE_RGBA, cColorBits := toBYTE bits, cDepthBits := 16,
            cStencilBits := 8, iLayerType := PFD_MAIN_PLANE },
        .SetPixelFormat os.GetDC os.ChoosePixelFormat
          { nVersion := 1,
            dwFlags := PFD_DRAW_TO_WINDOW ||| PFD_SUPPORT_OPENGL ||| PFD_DOUBLEBUFFER,
            iPixelType := PFD_TYPE_RGBA, cColorBits := toBYTE bits, cDepthBits := 16,
            cStencilBits := 8, iLayerType := PFD_MAIN_PLANE },
        .wglCreateContext os.GetDC,
        .wglMakeCurrent os.GetDC os.wglCreateContext,
        .ShowWindow os.CreateWindowEx SW_SHOW,
        .SetForegroundWindow os.CreateWindowEx,
        .SetFocus os.CreateWindowEx] := by
  simp [SetupWindow, andThen, SetupWindow.registerClass, SetupWindow.displayMode,
    SetupWindow.createWindow, SetupWindow.deviceContext, SetupWindow.pixelFormat,
    SetupWindow.renderingContext, SetupWindow.showAndInitialize, ResizeScene, UpdateProjection,
    InitializeScene, State.call, hreg, hcds, hyes, hwnd, hdc, hfmt, hset, hrc, hcur]

/-- C3: for every width, height and bit depth, when `SetupWindow` is called with fullscreen
requested, the display-mode change fails, the user accepts the windowed fallback and every
other OS call succeeds, `SetupWindow` returns success, clears the fullscreen flag, and creates
exactly one window, with the windowed style (`WS_OVERLAPPEDWINDOW` and a window edge, not the
borderless `WS_POPUP`) and the size of the adjusted rectangle computed in 32-bit `LONG`
arithmetic, without any call that hides the cursor. -/
theorem SetupWindow_accepted_fallback (hdr : Header) (os : SetupOutcomes) (s : State)
    (title : String) (width height bits : Int)
    (hreg : os.RegisterClassEx ≠ 0)
    (hcds : os.ChangeDisplaySettings ≠ DISP_CHANGE_SUCCESSFUL)
    (hyes : os.MessageBox = IDYES)
    (hwnd : os.CreateWindowEx ≠ 0) (hdc : os.GetDC ≠ 0) (hfmt : os.ChoosePixelFormat ≠ 0)
    (hset : os.SetPixelFormat = true) (hrc : os.wglCreateContext ≠ 0)
    (hcur : os.wglMakeCurrent = true) :
    (SetupWindow hdr os s title width height bits true).2 = true ∧
      (SetupWindow hdr os s title width height bits true).1.g_isFullscreen = false ∧
      (∃ issued : List OSCall,
        (SetupWindow hdr os s title width height bits true).1.calls = s.calls ++ issued ∧
        issued.filter OSCall.isCreateWindowEx =
          [.CreateWindowEx (WS_EX_APPWINDOW ||| WS_EX_WINDOWEDGE) hdr.WND_CLASS_NAME title
            (WS_OVERLAPPEDWINDOW ||| WS_CLIPCHILDREN ||| WS_CLIPSIBLINGS) 0 0
            (toLONG (os.AdjustWindowRectEx.right - os.AdjustWindowRectEx.left))
            (toLONG (os.AdjustWindowRectEx.bottom - os.AdjustWindowRectEx.top))
            os.GetModuleHandle] ∧
        issued.any OSCall.isShowCursor = false) ∧
      (WS_OVERLAPPEDWINDOW ||| WS_CLIPCHILDREN ||| WS_CLIPSIBLINGS) &&& WS_POPUP = 0 := by
  obtain ⟨hfs, hcalls⟩ := SetupWindow_accepted_state hdr os s title width height bits
    hreg hcds hyes hwnd hdc hfmt hset hrc hcur
  refine ⟨?_, hfs, ⟨_, hcalls, ?_, ?_⟩, by decide⟩
  · exact (SetupWindow_snd hdr os s title width height bits true).2
      ⟨hreg, Or.inr (Or.inr hyes), hwnd, hdc, hfmt, hset, hrc, hcur⟩
  · simp [OSCall.isCreateWindowEx]
  · simp [OSCall.isShowCursor]

/-- Instance of C3: an 800 x 600 x 32 fullscreen request whose mode change is rejected and
whose fallback prompt is answered "Yes". -/
theorem SetupWindow_accepted_fallback_witness :
    (acceptedOutcomes.RegisterClassEx ≠ 0 ∧
      acceptedOutcomes.ChangeDisplaySettings ≠ DISP_CHANGE_SUCCESSFUL ∧
      acceptedOutcomes.MessageBox = IDYES ∧
      acceptedOutcomes.CreateWindowEx ≠ 0 ∧ acceptedOutcomes.GetDC ≠ 0 ∧
      acceptedOutcomes.ChoosePixelFormat ≠ 0 ∧ acceptedOutcomes.SetPixelFormat = true ∧
      acceptedOutcomes.wglCreateContext ≠ 0 ∧ acceptedOutcomes.wglMakeCurrent = true) ∧
    ((SetupWindow exampleHeader acceptedOutcomes exampleState "Demo" 800 600 32 true).2 = true ∧
      (SetupWindow exampleHeader acceptedOutcomes exampleState "Demo" 800 600 32
        true).1.g_isFullscreen = false ∧
      (∃ issued : List OSCall,
        (SetupWindow exampleHeader acceptedOutcomes exampleState "Demo" 800 600 32 true).1.calls
          = exampleState.calls ++ issued ∧
        issued.filter OSCall.isCreateWindowEx =
          [.CreateWindowEx (WS_EX_APPWINDOW ||| WS_EX_WINDOWEDGE) exampleHeader.WND_CLASS_NAME
            "Demo" (WS_OVERLAPPEDWINDOW ||| WS_CLIPCHILDREN ||| WS_CLIPSIBLINGS) 0 0
            (toLONG
              (acceptedOutcomes.AdjustWindowRectEx.right - acceptedOutcomes.AdjustWindowRectEx.left))
            (toLONG
              (acceptedOutcomes.AdjustWindowRectEx.bottom - acceptedOutcomes.AdjustWindowRectEx.top))
            acceptedOutcomes.GetModuleHandle] ∧
        issued.any OSCall.isShowCursor = false) ∧
      (WS_OVERLAPPEDWINDOW ||| WS_CLIPCHILDREN ||| WS_CLIPSIBLINGS) &&& WS_POPUP = 0) :=
  ⟨by decide,
    SetupWindow_accepted_fallback exampleHeader acceptedOutcomes exampleState "Demo" 800 600 32
      (by decide) (by decide) (by decide) (by decide) (by decide) (by decide) (by decide)
      (by decide) (by decide)⟩

/-! ## `KillWindow` -/

theorem withoutDiagnostics_append (a b : List OSCall) :
    withoutDiagnostics (a ++ b) = withoutDiagnostics a ++ withoutDiagnostics b := by
  simp [withoutDiagnostics]

/-- The calls of `restoreDisplay` and the handles it leaves alone. -/
theorem restoreDisplay_spec (s : State) :
    (KillWindow.restoreDisplay s).calls = s.calls ++
        (if s.g_isFullscreen = true then [.ChangeDisplaySettings none 0, .ShowCursor true]
         else []) ∧
      (KillWindow.restoreDisplay s).g_hrc = s.g_hrc ∧
      (KillWindow.restoreDisplay s).g_hdc = s.g_hdc ∧
      (KillWindow.restoreDisplay s).g_hwnd = s.g_hwnd ∧
      (KillWindow.restoreDisplay s).g_hInstance = s.g_hInstance := by
  unfold KillWindow.restoreDisplay
  cases h : s.g_isFullscreen <;> simp [State.call]

/-- The non-diagnostic calls of `releaseRC` and the handles it leaves alone. -/
theorem releaseRC_spec (os : KillOutcomes) (s : State) :
    withoutDiagnostics (KillWindow.releaseRC os s).calls = withoutDiagnostics s.calls ++
        (if s.g_hrc ≠ 0 then [.wglMakeCurrent 0 0, .wglDeleteContext s.g_hrc] else []) ∧
      (KillWindow.releaseRC os s).g_hdc = s.g_hdc ∧
      (KillWindow.releaseRC os s).g_hwnd = s.g_hwnd ∧
      (KillWindow.releaseRC os s).g_hInstance = s.g_hInstance := by
  unfold KillWindow.releaseRC
  by_cases h : s.g_hrc = 0 <;> cases h1 : os.wglMakeCurrent <;>
    cases h2 : os.wglDeleteContext <;>
    simp [h, State.call, withoutDiagnostics, OSCall.isMessageBox]

/-- The non-diagnostic calls of `releaseDC` and the handles it leaves alone. -/
theorem releaseDC_spec (os : KillOutcomes) (s : State) :
    withoutDiagnostics (KillWindow.releaseDC os s).calls = withoutDiagnostics s.calls ++
        (if s.g_hdc ≠ 0 then [.ReleaseDC s.g_hwnd s.g_hdc] else []) ∧
      (KillWindow.releaseDC os s).g_hwnd = s.g_hwnd ∧
      (KillWindow.releaseDC os s).g_hInstance = s.g_hInstance := by
  unfold KillWindow.releaseDC
  by_cases h : s.g_hdc = 0 <;> cases h1 : os.ReleaseDC <;>
    simp [h, State.call, withoutDiagnostics, OSCall.isMessageBox]

/-- The non-diagnostic calls of `destroyWindow` and the handle it leaves alone. -/
theorem destroyWindow_spec (os : KillOutcomes) (s : State) :
    withoutDiagnostics (KillWindow.destroyWindow os s).calls = withoutDiagnostics s.calls ++
        (if s.g_hwnd ≠ 0 then [.DestroyWindow s.g_hwnd] else []) ∧
      (KillWindow.destroyWindow os s).g_hInstance = s.g_hInstance := by
  unfold KillWindow.destroyWindow
  by_cases h : s.g_hwnd = 0 <;> cases h1 : os.DestroyWindow <;>
    simp [h, State.call, withoutDiagnostics, OSCall.isMessageBox]

/-- The non-diagnostic calls of `unregisterClass`. -/
theorem unregisterClass_spec (hdr : Header) (os : KillOutcomes) (s : State) :
    withoutDiagnostics (KillWindow.unregisterClass hdr os s).calls =
      withoutDiagnostics s.calls ++ [.UnregisterClass hdr.WND_CLASS_NAME s.g_hInstance] := by
  unfold KillWindow.unregisterClass
  cases h1 : os.UnregisterClass <;>
    simp [State.call, withoutDiagnostics, OSCall.isMessageBox]

/-- The teardown calls of `KillWindow` are determined by the state it starts from: the answers
of the operating system do not occur on the right-hand side. -/
theorem KillWindow_teardown_calls (hdr : Header) (os : KillOutcomes) (s : State) :
    withoutDiagnostics (KillWindow hdr os s).1.calls = withoutDiagnostics s.calls ++
      withoutDiagnostics
        (if s.g_isFullscreen = true then [.ChangeDisplaySettings none 0, .ShowCursor true]
         else []) ++
      (if s.g_hrc ≠ 0 then [.wglMakeCurrent 0 0, .wglDeleteContext s.g_hrc] else []) ++
      (if s.g_hdc ≠ 0 then [.ReleaseDC s.g_hwnd s.g_hdc] else []) ++
      (if s.g_hwnd ≠ 0 then [.DestroyWindow s.g_hwnd] else []) ++
      [.UnregisterClass hdr.WND_CLASS_NAME s.g_hInstance] := by
  obtain ⟨a1, a2, a3, a4, a5⟩ := restoreDisplay_spec s
  obtain ⟨b1, b2, b3, b4⟩ := releaseRC_spec os (KillWindow.restoreDisplay s)
  obtain ⟨c1, c2, c3⟩ := releaseDC_spec os (KillWindow.releaseRC os (KillWindow.restoreDisplay s))
  obtain ⟨d1, d2⟩ := destroyWindow_spec os
    (KillWindow.releaseDC os (KillWindow.releaseRC os (KillWindow.restoreDisplay s)))
  have e1 := unregisterClass_spec hdr os (KillWindow.destroyWindow os
    (KillWindow.releaseDC os (KillWindow.releaseRC os (KillWindow.restoreDisplay s))))
  unfold KillWindow
  dsimp only
  rw [e1, d1, d2, c1, c2, c3, b1, b2, b3, b4, a1, a2, a3, a4, a5, withoutDiagnostics_append]

/-- C9: for every initial state of the flags and handles and every combination of outcomes of
the teardown OS calls, `KillWindow` returns success, and the sequence of OS calls it issues,
diagnostic message boxes apart, is the same as when every call succeeds: a failure reported by
context deactivation, context deletion, surface release, window destruction or class
unregistration keeps no later step from being attempted. -/
theorem KillWindow_best_effort (hdr : Header) (os : KillOutcomes) (s : State) :
    (KillWindow hdr os s).2 = true ∧
      withoutDiagnostics (KillWindow hdr os s).1.calls =
        withoutDiagnostics
          (KillWindow hdr
            { wglMakeCurrent := true, wglDeleteContext := true, ReleaseDC := true,
              DestroyWindow := true, UnregisterClass := true } s).1.calls := by
  refine ⟨rfl, ?_⟩
  rw [KillWindow_teardown_calls, KillWindow_teardown_calls]

/-! ## Teardown after a successful setup -/

/-- The flags and handles left by a successful `SetupWindow`: the handles are the ones the
operating system returned, and fullscreen is active exactly when it was requested and the
display-mode change succeeded. -/
theorem SetupWindow_success_state (hdr : Header) (os : SetupOutcomes) (s : State)
    (title : String) (width height bits : Int) (isFullscreen : Bool)
    (hok : (SetupWindow hdr os s title width height bits isFullscreen).2 = true) :
    (SetupWindow hdr os s title width height bits isFullscreen).1.g_hInstance
        = os.GetModuleHandle ∧
      (SetupWindow hdr os s title width height bits isFullscreen).1.g_hwnd
        = os.CreateWindowEx ∧
      (SetupWindow hdr os s title width height bits isFullscreen).1.g_hdc = os.GetDC ∧
      (SetupWindow hdr os s title width height bits isFullscreen).1.g_hrc
        = os.wglCreateContext ∧
      (SetupWindow hdr os s title width height bits isFullscreen).1.g_isFullscreen
        = (isFullscreen && decide (os.ChangeDisplaySettings = DISP_CHANGE_SUCCESSFUL)) := by
  obtain ⟨hreg, hmode, hwnd, hdc, hfmt, hset, hrc, hcur⟩ :=
    (SetupWindow_snd hdr os s title width height bits isFullscreen).1 hok
  cases isFullscreen
  · simp [SetupWindow, andThen, SetupWindow.registerClass, SetupWindow.displayMode,
      SetupWindow.createWindow, SetupWindow.deviceContext, SetupWindow.pixelFormat,
      SetupWindow.renderingContext, SetupWindow.showAndInitialize, ResizeScene,
      UpdateProjection, InitializeScene, State.call, hreg, hwnd, hdc, hfmt, hset, hrc, hcur]
  · by_cases hcds : os.ChangeDisplaySettings = DISP_CHANGE_SUCCESSFUL
    · simp [SetupWindow, andThen, SetupWindow.registerClass, SetupWindow.displayMode,
        SetupWindow.createWindow, SetupWindow.deviceContext, SetupWindow.pixelFormat,
        SetupWindow.renderingContext, SetupWindow.showAndInitialize, ResizeScene,
        UpdateProjection, InitializeScene, State.call, hreg, hwnd, hdc, hfmt, hset, hrc, hcur,
        hcds]
    · have hyes : os.MessageBox = IDYES := by
        rcases hmode with h | h | h
        · exact absurd h (by decide)
        · exact absurd h hcds
        · exact h
      simp [SetupWindow, andThen, SetupWindow.registerClass, SetupWindow.displayMode,
        SetupWindow.createWindow, SetupWindow.deviceContext, SetupWindow.pixelFormat,
        SetupWindow.renderingContext, SetupWindow.showAndInitialize, ResizeScene,
        UpdateProjection, InitializeScene, State.call, hreg, hwnd, hdc, hfmt, hset, hrc, hcur,
        hcds, hyes]

/-- The calls of a `KillWindow` that holds all three handles and meets no failure. -/
theorem KillWindow_calls_of_success (hdr : Header) (os : KillOutcomes) (s : State)
    (hrc : s.g_hrc ≠ 0) (hdc : s.g_hdc ≠ 0) (hwnd : s.g_hwnd ≠ 0)
    (h1 : os.wglMakeCurrent = true) (h2 : os.wglDeleteContext = true)
    (h3 : os.ReleaseDC = true) (h4 : os.DestroyWindow = true)
    (h5 : os.UnregisterClass = true) :
    (KillWindow hdr os s).1.calls = s.calls ++
      (if s.g_isFullscreen = true then [.ChangeDisplaySettings none 0, .ShowCursor true]
       else []) ++
      [.wglMakeCurrent 0 0, .wglDeleteContext s.g_hrc, .ReleaseDC s.g_hwnd s.g_hdc,
        .DestroyWindow s.g_hwnd, .UnregisterClass hdr.WND_CLASS_NAME s.g_hInstance] := by
  cases hfs : s.g_isFullscreen <;>
    simp [KillWindow, KillWindow.restoreDisplay, KillWindow.releaseRC, KillWindow.releaseDC,
      KillWindow.destroyWindow, KillWindow.unregisterClass, State.call, hrc, hdc, hwnd, h1, h2,
      h3, h4, h5, hfs]

/-- C10: when `KillWindow` is called after a fully successful `SetupWindow` and every teardown
OS call succeeds, the calls it issues are, after the display restoration of fullscreen mode,
exactly: deactivate and delete the rendering context that setup created, release the device
context that setup acquired, destroy the window that setup created, unregister the window
class, each once and in that order; and a `SetupWindow` with the same configuration run on the
state it leaves, with every OS call succeeding, returns success. -/
theorem KillWindow_after_SetupWindow (hdr : Header) (os os' : SetupOutcomes)
    (kill : KillOutcomes) (s : State) (title : String) (width height bits : Int)
    (isFullscreen : Bool)
    (hsetup : (SetupWindow hdr os s title width height bits isFullscreen).2 = true)
    (hkill : kill.wglMakeCurrent = true ∧ kill.wglDeleteContext = true ∧
      kill.ReleaseDC = true ∧ kill.DestroyWindow = true ∧ kill.UnregisterClass = true)
    (hagain : os'.RegisterClassEx ≠ 0 ∧
      os'.ChangeDisplaySettings = DISP_CHANGE_SUCCESSFUL ∧ os'.CreateWindowEx ≠ 0 ∧
      os'.GetDC ≠ 0 ∧ os'.ChoosePixelFormat ≠ 0 ∧ os'.SetPixelFormat = true ∧
      os'.wglCreateContext ≠ 0 ∧ os'.wglMakeCurrent = true) :
    (KillWindow hdr kill (SetupWindow hdr os s title width height bits isFullscreen).1).2
        = true ∧
      (KillWindow hdr kill (SetupWindow hdr os s title width height bits isFullscreen).1).1.calls
        = (SetupWindow hdr os s title width height bits isFullscreen).1.calls ++
          (if (SetupWindow hdr os s title width height bits isFullscreen).1.g_isFullscreen = true
            then [.ChangeDisplaySettings none 0, .ShowCursor true] else []) ++
          [.wglMakeCurrent 0 0, .wglDeleteContext os.wglCreateContext,
            .ReleaseDC os.CreateWindowEx os.GetDC, .DestroyWindow os.CreateWindowEx,
            .UnregisterClass hdr.WND_CLASS_NAME os.GetModuleHandle] ∧
      (os.wglCreateContext ≠ 0 ∧ os.GetDC ≠ 0 ∧ os.CreateWindowEx ≠ 0) ∧
      (SetupWindow hdr os'
        (KillWindow hdr kill (SetupWindow hdr os s title width height bits isFullscreen).1).1
        title width height bits isFullscreen).2 = true := by
  obtain ⟨k1, k2, k3, k4, k5⟩ := hkill
  obtain ⟨a1, a2, a3, a4, a5, a6, a7, a8⟩ := hagain
  obtain ⟨_, _, hwnd, hdc, _, _, hrc, _⟩ :=
    (SetupWindow_snd hdr os s title width height bits isFullscreen).1 hsetup
  obtain ⟨e1, e2, e3, e4, _⟩ :=
    SetupWindow_success_state hdr os s title width height bits isFullscreen hsetup
  refine ⟨rfl, ?_, ⟨hrc, hdc, hwnd⟩, ?_⟩
  · rw [KillWindow_calls_of_success hdr kill _ (by rw [e4]; exact hrc) (by rw [e3]; exact hdc)
      (by rw [e2]; exact hwnd) k1 k2 k3 k4 k5, e1, e2, e3, e4]
  · exact (SetupWindow_snd hdr os' _ title width height bits isFullscreen).2
      ⟨a1, Or.inr (Or.inl a2), a3, a4, a5, a6, a7, a8⟩

/-- Instance of C10: a windowed 800 x 600 x 32 setup of the example state, torn down and set
up again, every OS call succeeding. -/
theorem KillWindow_after_SetupWindow_witness :
    ((SetupWindow exampleHeader exampleSetupOutcomes exampleState "Demo" 800 600 32 false).2
        = true ∧
      (exampleKillOutcomes.wglMakeCurrent = true ∧ exampleKillOutcomes.wglDeleteContext = true ∧
        exampleKillOutcomes.ReleaseDC = true ∧ exampleKillOutcomes.DestroyWindow = true ∧
        exampleKillOutcomes.UnregisterClass = true) ∧
      (exampleSetupOutcomes.RegisterClassEx ≠ 0 ∧
        exampleSetupOutcomes.ChangeDisplaySettings = DISP_CHANGE_SUCCESSFUL ∧
        exampleSetupOutcomes.CreateWindowEx ≠ 0 ∧ exampleSetupOutcomes.GetDC ≠ 0 ∧
        exampleSetupOutcomes.ChoosePixelFormat ≠ 0 ∧ exampleSetupOutcomes.SetPixelFormat = true ∧
        exampleSetupOutcomes.wglCreateContext ≠ 0 ∧
        exampleSetupOutcomes.wglMakeCurrent = true)) ∧
    ((KillWindow exampleHeader exampleKillOutcomes
        (SetupWindow exampleHeader exampleSetupOutcomes exampleState "Demo" 800 600 32
          false).1).2 = true ∧
      (KillWindow exampleHeader exampleKillOutcomes
        (SetupWindow exampleHeader exampleSetupOutcomes exampleState "Demo" 800 600 32
          false).1).1.calls
        = (SetupWindow exampleHeader exampleSetupOutcomes exampleState "Demo" 800 600 32
            false).1.calls ++
          (if (SetupWindow exampleHeader exampleSetupOutcomes exampleState "Demo" 800 600 32
              false).1.g_isFullscreen = true
            then [.ChangeDisplaySettings none 0, .ShowCursor true] else []) ++
          [.wglMakeCurrent 0 0, .wglDeleteContext exampleSetupOutcomes.wglCreateContext,
            .ReleaseDC exampleSetupOutcomes.CreateWindowEx exampleSetupOutcomes.GetDC,
            .DestroyWindow exampleSetupOutcomes.CreateWindowEx,
            .UnregisterClass exampleHeader.WND_CLASS_NAME
              exampleSetupOutcomes.GetModuleHandle] ∧
      (exampleSetupOutcomes.wglCreateContext ≠ 0 ∧ exampleSetupOutcomes.GetDC ≠ 0 ∧
        exampleSetupOutcomes.CreateWindowEx ≠ 0) ∧
      (SetupWindow exampleHeader exampleSetupOutcomes
        (KillWindow exampleHeader exampleKillOutcomes
          (SetupWindow exampleHeader exampleSetupOutcomes exampleState "Demo" 800 600 32
            false).1).1
        "Demo" 800 600 32 false).2 = true) :=
  ⟨⟨by decide, by decide, by decide⟩,
    KillWindow_after_SetupWindow exampleHeader exampleSetupOutcomes exampleSetupOutcomes
      exampleKillOutcomes exampleState "Demo" 800 600 32 false (by decide) (by decide)
      (by decide)⟩

end OpenGLApp
